import Mathlib

/-!
Shallow embedding of `windows/flutter/generated_plugin_registrant.cc`.

The source file defines a single C++ function

  void RegisterPlugins(flutter::PluginRegistry* registry)

whose body is a straight-line sequence of ten external calls: for each of
five plugins, it fetches a registrar from the registry with
`registry->GetRegistrarForPlugin(<name>)` and immediately passes the result
to that plugin's registration entry point.

We embed this as a trace semantics.  The registry is modelled by its only
observable behaviour: a response function from plugin-name strings to
registrar values (of an arbitrary type `R`, since registrars are opaque
handles).  `RegisterPlugins` is then the pure function producing the list
of external calls the C++ body performs, in program order, each
`GetRegistrarForPlugin` call recorded together with the value the registry
returned for it, and each registration call recorded together with the
registrar value that was passed to it.
-/

/-- The five plugins whose registration entry points the generated
registrant calls, one constructor per `#include`d plugin. -/
inductive Plugin where
  | AppLinksPluginCApi
  | BatteryPlusWindowsPlugin
  | BlePeripheralPluginCApi
  | BluetoothLowEnergyWindowsPluginCApi
  | PermissionHandlerWindowsPlugin
deriving DecidableEq

/-- The name string the source passes to `GetRegistrarForPlugin` for each
plugin (they coincide with the constructor names). -/
def Plugin.name : Plugin → String
  | .AppLinksPluginCApi => "AppLinksPluginCApi"
  | .BatteryPlusWindowsPlugin => "BatteryPlusWindowsPlugin"
  | .BlePeripheralPluginCApi => "BlePeripheralPluginCApi"
  | .BluetoothLowEnergyWindowsPluginCApi => "BluetoothLowEnergyWindowsPluginCApi"
  | .PermissionHandlerWindowsPlugin => "PermissionHandlerWindowsPlugin"

/-- `flutter::PluginRegistry`, reduced to its only member used by the
source: `GetRegistrarForPlugin`, taking a plugin name and returning an
opaque registrar handle of type `R`. -/
structure PluginRegistry (R : Type) where
  GetRegistrarForPlugin : String → R

/-- One external call made by the registrant body, recorded with the value
returned (for registry queries) or passed (for registration calls). -/
inductive Event (R : Type) where
  | GetRegistrarForPlugin (nm : String) (result : R)
  | RegisterWithRegistrar (plugin : Plugin) (registrar : R)
deriving DecidableEq

/-- The body of `RegisterPlugins`, transcribed call for call from the
source: each source statement
`<P>RegisterWithRegistrar(registry->GetRegistrarForPlugin("<P>"));`
contributes first its inner registry query and then the registration call
receiving exactly the queried value. -/
def RegisterPlugins {R : Type} (registry : PluginRegistry R) : List (Event R) :=
  [ Event.GetRegistrarForPlugin ("AppLinksPluginCApi")
      (registry.GetRegistrarForPlugin ("AppLinksPluginCApi")),
    Event.RegisterWithRegistrar Plugin.AppLinksPluginCApi
      (registry.GetRegistrarForPlugin ("AppLinksPluginCApi")),
    Event.GetRegistrarForPlugin ("BatteryPlusWindowsPlugin")
      (registry.GetRegistrarForPlugin ("BatteryPlusWindowsPlugin")),
    Event.RegisterWithRegistrar Plugin.BatteryPlusWindowsPlugin
      (registry.GetRegistrarForPlugin ("BatteryPlusWindowsPlugin")),
    Event.GetRegistrarForPlugin ("BlePeripheralPluginCApi")
      (registry.GetRegistrarForPlugin ("BlePeripheralPluginCApi")),
    Event.RegisterWithRegistrar Plugin.BlePeripheralPluginCApi
      (registry.GetRegistrarForPlugin ("BlePeripheralPluginCApi")),
    Event.GetRegistrarForPlugin ("BluetoothLowEnergyWindowsPluginCApi")
      (registry.GetRegistrarForPlugin ("BluetoothLowEnergyWindowsPluginCApi")),
    Event.RegisterWithRegistrar Plugin.BluetoothLowEnergyWindowsPluginCApi
      (registry.GetRegistrarForPlugin ("BluetoothLowEnergyWindowsPluginCApi")),
    Event.GetRegistrarForPlugin ("PermissionHandlerWindowsPlugin")
      (registry.GetRegistrarForPlugin ("PermissionHandlerWindowsPlugin")),
    Event.RegisterWithRegistrar Plugin.PermissionHandlerWindowsPlugin
      (registry.GetRegistrarForPlugin ("PermissionHandlerWindowsPlugin")) ]

/-- The plugins in the order their registration calls appear in the
source. -/
def pluginOrder : List Plugin :=
  [ Plugin.AppLinksPluginCApi,
    Plugin.BatteryPlusWindowsPlugin,
    Plugin.BlePeripheralPluginCApi,
    Plugin.BluetoothLowEnergyWindowsPluginCApi,
    Plugin.PermissionHandlerWindowsPlugin ]

/-- The name strings in the order they are passed to
`GetRegistrarForPlugin` in the source. -/
def pluginNames : List String :=
  [ "AppLinksPluginCApi",
    "BatteryPlusWindowsPlugin",
    "BlePeripheralPluginCApi",
    "BluetoothLowEnergyWindowsPluginCApi",
    "PermissionHandlerWindowsPlugin" ]

/-- The plugins whose registration entry points are invoked in a trace, in
call order. -/
def registrationsOf {R : Type} (t : List (Event R)) : List Plugin :=
  t.filterMap fun e =>
    match e with
    | Event.RegisterWithRegistrar p _ => some p
    | Event.GetRegistrarForPlugin _ _ => none

/-- The names queried from the registry in a trace, in call order. -/
def queriesOf {R : Type} (t : List (Event R)) : List String :=
  t.filterMap fun e =>
    match e with
    | Event.GetRegistrarForPlugin nm _ => some nm
    | Event.RegisterWithRegistrar _ _ => none

/-- The registrar values passed to a given plugin's registration entry
point in a trace, in call order. -/
def registrarsPassedTo {R : Type} (p : Plugin) (t : List (Event R)) : List R :=
  t.filterMap fun e =>
    match e with
    | Event.RegisterWithRegistrar q r => if q = p then some r else none
    | Event.GetRegistrarForPlugin _ _ => none

/-- The control-flow shape of an external call: which call is made, with
the opaque registrar data erased. -/
inductive EventShape where
  | GetRegistrarForPlugin (nm : String)
  | RegisterWithRegistrar (plugin : Plugin)
deriving DecidableEq

/-- Erase the registrar value carried by an event, keeping the call and
its name argument. -/
def Event.shape {R : Type} : Event R → EventShape
  | Event.GetRegistrarForPlugin nm _ => EventShape.GetRegistrarForPlugin nm
  | Event.RegisterWithRegistrar p _ => EventShape.RegisterWithRegistrar p

/-- The fixed sequence of calls the source emits, read off its ten call
sites in order. -/
def registrantShape : List EventShape :=
  [ EventShape.GetRegistrarForPlugin ("AppLinksPluginCApi"),
    EventShape.RegisterWithRegistrar Plugin.AppLinksPluginCApi,
    EventShape.GetRegistrarForPlugin ("BatteryPlusWindowsPlugin"),
    EventShape.RegisterWithRegistrar Plugin.BatteryPlusWindowsPlugin,
    EventShape.GetRegistrarForPlugin ("BlePeripheralPluginCApi"),
    EventShape.RegisterWithRegistrar Plugin.BlePeripheralPluginCApi,
    EventShape.GetRegistrarForPlugin ("BluetoothLowEnergyWindowsPluginCApi"),
    EventShape.RegisterWithRegistrar Plugin.BluetoothLowEnergyWindowsPluginCApi,
    EventShape.GetRegistrarForPlugin ("PermissionHandlerWindowsPlugin"),
    EventShape.RegisterWithRegistrar Plugin.PermissionHandlerWindowsPlugin ]

/-- Run of `RegisterPlugins` over an explicit state `σ`: the body itself
touches no state, so the run is exactly the external calls' own effects
(`step`) applied in program order to the initial state. -/
def runRegisterPlugins {R σ : Type} (step : Event R → σ → σ)
    (registry : PluginRegistry R) (s : σ) : σ :=
  (RegisterPlugins registry).foldl (fun t e => step e t) s

/-- Pointer-level view of the C++ signature: the `registry` parameter is a
pointer, modelled as `Option (PluginRegistry R)`.  The body's first action
dereferences it with no null test, so on a null pointer the run is
undefined (no trace); on a non-null pointer it is `RegisterPlugins` on the
pointee. -/
def RegisterPluginsPtr {R : Type} (registry : Option (PluginRegistry R)) :
    Option (List (Event R)) :=
  match registry with
  | none => none
  | some r => some (RegisterPlugins r)

theorem foldl_preserves {α σ : Type} (step : α → σ → σ) (P : σ → Prop)
    (hstep : ∀ e s, P s → P (step e s)) :
    ∀ (l : List α) (s : σ), P s → P (l.foldl (fun t e => step e t) s) := by
  intro l
  induction l with
  | nil => intro s hs; exact hs
  | cons a l ih =>
    intro s hs
    exact ih (step a s) (hstep a s hs)

/-- C1: for every registry, the registration entry points invoked by
`RegisterPlugins` are exactly the five plugins, each exactly once, in the
listed order. -/
theorem registerPlugins_registrations {R : Type} (registry : PluginRegistry R) :
    registrationsOf (RegisterPlugins registry) = pluginOrder ∧
    ∀ p : Plugin, (registrationsOf (RegisterPlugins registry)).count p = 1 := by
  refine ⟨rfl, ?_⟩
  intro p
  cases p <;> rfl

/-- C3: the set of registered plugins is fixed: it does not depend on the
registry, and a plugin is registered iff it is one of the five enumerated
ones. -/
theorem registerPlugins_fixed_set {R S : Type}
    (reg1 : PluginRegistry R) (reg2 : PluginRegistry S) :
    registrationsOf (RegisterPlugins reg1) = registrationsOf (RegisterPlugins reg2) ∧
    ∀ p : Plugin, p ∈ registrationsOf (RegisterPlugins reg1) ↔ p ∈ pluginOrder := by
  refine ⟨rfl, ?_⟩
  intro p
  cases p <;> exact Iff.rfl

/-- C9: the five plugin names queried from the registry are pairwise
distinct, so no name is queried twice in a run. -/
theorem registerPlugins_distinct_names {R : Type} (registry : PluginRegistry R) :
    queriesOf (RegisterPlugins registry) = pluginNames ∧
    (queriesOf (RegisterPlugins registry)).Nodup := by
  refine ⟨rfl, ?_⟩
  show pluginNames.Nodup
  decide

/-- C10: `RegisterPlugins` always returns, emitting exactly ten external
calls: five registry queries and five registration calls. -/
theorem registerPlugins_terminates {R : Type} (registry : PluginRegistry R) :
    (RegisterPlugins registry).length = 10 ∧
    (queriesOf (RegisterPlugins registry)).length = 5 ∧
    (registrationsOf (RegisterPlugins registry)).length = 5 :=
  ⟨rfl, rfl, rfl⟩

/-- C2: any registration call in the trace passes exactly the registrar the
registry returned for that plugin's own name. -/
theorem registerPlugins_registrar_matches_name {R : Type}
    (registry : PluginRegistry R) (p : Plugin) (r : R)
    (h : Event.RegisterWithRegistrar p r ∈ RegisterPlugins registry) :
    r = registry.GetRegistrarForPlugin p.name := by
  simp only [RegisterPlugins, List.mem_cons, List.not_mem_nil, or_false,
    Event.RegisterWithRegistrar.injEq, reduceCtorEq, false_or] at h
  rcases h with ⟨hp, hr⟩ | ⟨hp, hr⟩ | ⟨hp, hr⟩ | ⟨hp, hr⟩ | ⟨hp, hr⟩ <;>
    subst hp <;> exact hr

/-- Witness for C2 at a concrete registry. -/
theorem registerPlugins_registrar_matches_name_witness :
    (Event.RegisterWithRegistrar Plugin.BatteryPlusWindowsPlugin 3
      ∈ RegisterPlugins (PluginRegistry.mk fun _ => (3 : Nat))) ∧
    3 = (PluginRegistry.mk fun _ => (3 : Nat)).GetRegistrarForPlugin
      Plugin.BatteryPlusWindowsPlugin.name :=
  ⟨by decide,
   registerPlugins_registrar_matches_name
     (PluginRegistry.mk fun _ => (3 : Nat)) Plugin.BatteryPlusWindowsPlugin 3
     (by decide)⟩

/-- C4: the sequence of calls made is the same fixed shape for every
registry (no branching on any returned value), and each plugin's
registration call receives the queried value for its name unmodified,
exactly once — including when registrars are `Option` values and the
registry returns `none`. -/
theorem registerPlugins_no_branching {R : Type} (registry : PluginRegistry R) :
    (RegisterPlugins registry).map Event.shape = registrantShape ∧
    ∀ p : Plugin, registrarsPassedTo p (RegisterPlugins registry)
        = [registry.GetRegistrarForPlugin p.name] := by
  refine ⟨rfl, ?_⟩
  intro p
  cases p <;> rfl

/-- C5: `RegisterPlugins` mutates nothing itself: over any explicit state,
every property preserved by each individual external call's effect is
preserved by the whole run, so state the external calls do not change is
unchanged when `RegisterPlugins` returns. -/
theorem registerPlugins_frame {R σ : Type} (step : Event R → σ → σ)
    (registry : PluginRegistry R) (P : σ → Prop)
    (hstep : ∀ e s, P s → P (step e s)) (s : σ) (hs : P s) :
    P (runRegisterPlugins step registry s) :=
  foldl_preserves step P hstep (RegisterPlugins registry) s hs

/-- Witness for C5 at a concrete state type and step function. -/
theorem registerPlugins_frame_witness :
    7 ≤ runRegisterPlugins (fun (_ : Event Unit) (n : Nat) => n + 1)
      (PluginRegistry.mk fun _ => ()) 7 :=
  registerPlugins_frame (fun _ n => n + 1) (PluginRegistry.mk fun _ => ())
    (fun n => 7 ≤ n) (fun _ _ hs => Nat.le_succ_of_le hs) 7 (Nat.le_refl 7)

/-- C6: the behaviour depends only on the registry's responses to the five
queried names: two registries agreeing there produce identical traces. -/
theorem registerPlugins_deterministic {R : Type}
    (reg1 reg2 : PluginRegistry R)
    (h : ∀ nm ∈ pluginNames,
      reg1.GetRegistrarForPlugin nm = reg2.GetRegistrarForPlugin nm) :
    RegisterPlugins reg1 = RegisterPlugins reg2 := by
  have h1 := h ("AppLinksPluginCApi") (by decide)
  have h2 := h ("BatteryPlusWindowsPlugin") (by decide)
  have h3 := h ("BlePeripheralPluginCApi") (by decide)
  have h4 := h ("BluetoothLowEnergyWindowsPluginCApi") (by decide)
  have h5 := h ("PermissionHandlerWindowsPlugin") (by decide)
  simp [RegisterPlugins, h1, h2, h3, h4, h5]

/-- Witness for C6: two registries that differ away from the five plugin
names still yield the same trace. -/
theorem registerPlugins_deterministic_witness :
    RegisterPlugins (PluginRegistry.mk fun nm => nm.length) =
    RegisterPlugins (PluginRegistry.mk fun nm =>
      if nm = "x" then 99 else nm.length) :=
  registerPlugins_deterministic
    (PluginRegistry.mk fun nm => nm.length)
    (PluginRegistry.mk fun nm => if nm = "x" then 99 else nm.length)
    (by decide)

/-- C8: the body performs no null test on the registry pointer: on a null
pointer the run is undefined before any call is made, and under the
precondition that the pointer is non-null the run is exactly
`RegisterPlugins` on the pointee. -/
theorem registerPlugins_null_precondition (R : Type) :
    RegisterPluginsPtr (none : Option (PluginRegistry R)) = none ∧
    ∀ registry : PluginRegistry R,
      RegisterPluginsPtr (some registry) = some (RegisterPlugins registry) :=
  ⟨rfl, fun _ => rfl⟩
